import Mathlib

/-!
Verification of the Zoho attendance sync service
(`src/sync_function/sync/app.py`) against its specification.

The Python module is embedded shallowly:

* External effects (the SSM parameter store, the provider's token endpoint,
  the attendance database, the bulk-import endpoint, and the wall clock) are
  modelled by an explicit environment `Env` fixing, for one run, the outcome
  each external call would produce, and by an explicit `World` threading the
  store contents and a trace of the effects performed.
* Python exceptions are modelled by `Except PyErr`; the `try/except` blocks
  of the source become matches on the propagated error.
* Python strings held in the SSM store are modelled by `ParamValue`:
  `ParamValue.piso t` stands for a string that `datetime.fromisoformat`
  parses to the UTC timestamp `t` (with `t` in epoch seconds, and
  `isoformat` producing the canonical such string), while
  `ParamValue.pstr s` stands for a string that fails to parse as a
  timestamp (such as an access token).  This preserves exactly the
  behaviour the module depends on: `isoformat` is injective,
  `fromisoformat` is its left inverse, and parsing is partial.
-/

namespace ZohoSync

/-- SSM key of the cached access token (`ZOHO_TOKEN_SSM_KEY` in app.py). -/
def ZOHO_TOKEN_SSM_KEY : String := "ZOHO_ACCESS_TOKEN"

/-- SSM key of the cached token expiry (`ZOHO_TOKEN_EXPIRY_SSM_KEY` in app.py). -/
def ZOHO_TOKEN_EXPIRY_SSM_KEY : String := "ZOHO_ACCESS_TOKEN_EXPIRY"

/-- Grace period in seconds subtracted from the expiry (`ACCESS_TOKEN_GRACE_PERIOD = 300`). -/
def ACCESS_TOKEN_GRACE_PERIOD : Int := 300

/-- A Python string value held in (or written to) the SSM parameter store.
`piso t` models the ISO-8601 rendering of the UTC instant `t` (epoch
seconds); `pstr s` models any string that is not a valid ISO timestamp. -/
inductive ParamValue where
  | pstr (s : String)
  | piso (t : Int)
deriving DecidableEq

/-- Model of `datetime.isoformat` applied to a UTC instant, as stored by
`refresh_zoho_access_token`. -/
def isoformat (t : Int) : ParamValue := ParamValue.piso t

/-- Model of `datetime.fromisoformat`: parses the ISO rendering of an
instant back, and fails (raises `ValueError`) on any other string. -/
def fromisoformat : ParamValue → Option Int
  | ParamValue.pstr _ => none
  | ParamValue.piso t => some t

/-- A raised Python exception: either boto3's `ParameterNotFound` or a
generic `Exception` carrying its message (`str(e)`). -/
inductive PyErr where
  | parameterNotFound
  | exception (msg : String)
deriving DecidableEq

/-- Model of Python `str(e)` applied to a raised exception. -/
def pyStr : PyErr → String
  | PyErr.parameterNotFound => "An error occurred (ParameterNotFound) when calling the GetParameter operation"
  | PyErr.exception msg => msg

/-- Contents of the two SSM parameters used by the module. -/
structure Store where
  token : Option ParamValue
  expiry : Option ParamValue
deriving DecidableEq

/-- Trace of the externally visible effects performed so far in a run:
SSM reads, completed SSM writes (key, value, parameter type, in order),
POSTs to the token endpoint, invocations of `refresh_zoho_access_token`,
and POSTs to the bulk-import endpoint. -/
structure Trace where
  storeReads : Nat
  storeWrites : List (String × ParamValue × String)
  tokenPosts : Nat
  refreshCalls : Nat
  bulkPosts : Nat
deriving DecidableEq

/-- The mutable world a run threads: the durable store plus the effect trace. -/
structure World where
  store : Store
  trace : Trace
deriving DecidableEq

/-- The JSON body of a successful token-endpoint response
(`access_token`, `expires_in`). -/
structure TokenJson where
  access_token : String
  expires_in : Int
deriving DecidableEq

/-- The HTTP response of the provider's token endpoint; `json = none`
models a body that does not parse as the expected token JSON. -/
structure TokenResponse where
  status_code : Nat
  text : String
  json : Option TokenJson
deriving DecidableEq

/-- The HTTP response of the provider's bulk-import endpoint. -/
structure BulkResponse where
  status_code : Nat
  text : String
deriving DecidableEq

/-- A row returned by `fetch_attendance_records` (the SELECT aliases
`employeeId`, `eventTime`, `isCheckin`, `downloadDate`). -/
structure Row where
  employeeId : String
  eventTime : String
  isCheckin : String
  downloadDate : String
deriving DecidableEq

/-- The external environment of one run: the clock, the configured
credentials, fault injections for the four SSM calls (a `some msg` makes
that call raise a generic exception with message `msg`, modelling e.g.
transient store unavailability), and the outcomes of the database query,
the token-endpoint POST and the bulk-import POST. -/
structure Env where
  now : Int
  refreshToken : String
  clientId : String
  clientSecret : String
  tokenReadFault : Option String
  expiryReadFault : Option String
  putTokenFault : Option String
  putExpiryFault : Option String
  tokenResponse : TokenResponse
  fetchResult : Except String (List Row)
  bulkResult : Except String BulkResponse

/-- Embedding of `get_ssm_parameter(name)`: counts the read, raises the
injected fault if any, returns the stored value, and raises
`ParameterNotFound` when the key has never been written. -/
def get_ssm_parameter (fault : Option String) (w : World) (name : String) :
    Except PyErr ParamValue × World :=
  let w1 : World := { w with trace := { w.trace with storeReads := w.trace.storeReads + 1 } }
  match fault with
  | some msg => (Except.error (PyErr.exception msg), w1)
  | none =>
    let slot : Option ParamValue :=
      if name = ZOHO_TOKEN_SSM_KEY then w1.store.token
      else if name = ZOHO_TOKEN_EXPIRY_SSM_KEY then w1.store.expiry
      else none
    match slot with
    | some v => (Except.ok v, w1)
    | none => (Except.error PyErr.parameterNotFound, w1)

/-- Embedding of `put_ssm_parameter(name, value, param_type)`: raises the
injected fault if any (leaving the store untouched), otherwise overwrites
the key and records the completed write in the trace. -/
def put_ssm_parameter (fault : Option String) (w : World) (name : String)
    (value : ParamValue) (param_type : String) : Except PyErr Unit × World :=
  match fault with
  | some msg => (Except.error (PyErr.exception msg), w)
  | none =>
    let store1 : Store :=
      if name = ZOHO_TOKEN_SSM_KEY then { w.store with token := some value }
      else if name = ZOHO_TOKEN_EXPIRY_SSM_KEY then { w.store with expiry := some value }
      else w.store
    (Except.ok (),
      { store := store1,
        trace := { w.trace with storeWrites := w.trace.storeWrites ++ [(name, value, param_type)] } })

/-- Embedding of `refresh_zoho_access_token(refresh_token, client_id, client_secret)`:
POSTs the refresh-token grant, raises on a non-200 status with the response
body text in the message, otherwise computes `expiry_time = now + expires_in`,
writes the token (SecureString) then the expiry (String) into SSM, and
returns the new access token. -/
def refresh_zoho_access_token (env : Env)
    (refresh_token client_id client_secret : String) (w : World) :
    Except PyErr ParamValue × World :=
  let w1 : World := { w with trace := { w.trace with
    refreshCalls := w.trace.refreshCalls + 1,
    tokenPosts := w.trace.tokenPosts + 1 } }
  let response := env.tokenResponse
  if response.status_code ≠ 200 then
    (Except.error (PyErr.exception ("Failed to refresh Zoho access token: " ++ response.text)), w1)
  else
    match response.json with
    | none => (Except.error (PyErr.exception "token response body is not the expected JSON"), w1)
    | some tokens =>
      let access_token := tokens.access_token
      let expiry_time : Int := env.now + tokens.expires_in
      match put_ssm_parameter env.putTokenFault w1 ZOHO_TOKEN_SSM_KEY
          (ParamValue.pstr access_token) "SecureString" with
      | (Except.error e, w2) => (Except.error e, w2)
      | (Except.ok _, w2) =>
        match put_ssm_parameter env.putExpiryFault w2 ZOHO_TOKEN_EXPIRY_SSM_KEY
            (isoformat expiry_time) "String" with
        | (Except.error e, w3) => (Except.error e, w3)
        | (Except.ok _, w3) => (Except.ok (ParamValue.pstr access_token), w3)

/-- Embedding of `get_or_refresh_zoho_access_token`: reads the cached token
and expiry, parses the expiry, and returns the cached token while
`now < expiry - GracePeriod`; otherwise refreshes.  The `try` block of the
source spans the reads, the parse, the comparison and the stale-branch
refresh call; `except ssm.exceptions.ParameterNotFound` and
`except Exception` both fall through to a refresh. -/
def get_or_refresh_zoho_access_token (env : Env)
    (refresh_token client_id client_secret : String) (w : World) :
    Except PyErr ParamValue × World :=
  let tryResult : Except PyErr ParamValue × World :=
    match get_ssm_parameter env.tokenReadFault w ZOHO_TOKEN_SSM_KEY with
    | (Except.error e, w1) => (Except.error e, w1)
    | (Except.ok access_token, w1) =>
      match get_ssm_parameter env.expiryReadFault w1 ZOHO_TOKEN_EXPIRY_SSM_KEY with
      | (Except.error e, w2) => (Except.error e, w2)
      | (Except.ok expiry_str, w2) =>
        match fromisoformat expiry_str with
        | none => (Except.error (PyErr.exception "Invalid isoformat string"), w2)
        | some expiry_time =>
          let current_time := env.now
          if current_time < expiry_time - ACCESS_TOKEN_GRACE_PERIOD then
            (Except.ok access_token, w2)
          else
            refresh_zoho_access_token env refresh_token client_id client_secret w2
  match tryResult with
  | (Except.ok v, w4) => (Except.ok v, w4)
  | (Except.error PyErr.parameterNotFound, w4) =>
    refresh_zoho_access_token env refresh_token client_id client_secret w4
  | (Except.error (PyErr.exception _), w4) =>
    refresh_zoho_access_token env refresh_token client_id client_secret w4

/-- Embedding of `transform_records_for_zoho`: each row maps to the dict
`[("empId", employeeId), ("checkIn", eventTime)]` when `isCheckin = "1"`
and to the `checkOut` variant otherwise (dicts as ordered key/value lists). -/
def transform_records_for_zoho (records : List Row) : List (List (String × String)) :=
  records.map (fun record =>
    if record.isCheckin = "1" then
      [("empId", record.employeeId), ("checkIn", record.eventTime)]
    else
      [("empId", record.employeeId), ("checkOut", record.eventTime)])

/-- The dict returned by `send_to_zoho` on any received HTTP response. -/
structure SendResult where
  status_code : Nat
  response_body : String
deriving DecidableEq

/-- Embedding of `send_to_zoho(data, access_token)`: POSTs to the
bulk-import endpoint; any received response is returned as
`status_code`/`response_body`; a transport exception is re-raised with its
message wrapped. -/
def send_to_zoho (env : Env) (data : List (List (String × String)))
    (access_token : ParamValue) (w : World) : Except PyErr SendResult × World :=
  let w1 : World := { w with trace := { w.trace with bulkPosts := w.trace.bulkPosts + 1 } }
  match env.bulkResult with
  | Except.error msg =>
    (Except.error (PyErr.exception ("Failed to send data to Zoho: " ++ msg)), w1)
  | Except.ok response =>
    (Except.ok { status_code := response.status_code, response_body := response.text }, w1)

/-- The JSON body of the handler's result: `message` (plus optional `data`)
on success, `error` on failure. -/
inductive ResponseBody where
  | okBody (message : String) (data : Option SendResult)
  | errBody (error : String)
deriving DecidableEq

/-- The structured invocation result (`statusCode` plus body). -/
structure LambdaResult where
  statusCode : Nat
  body : ResponseBody
deriving DecidableEq

/-- Embedding of `success_response(message, data=None)`. -/
def success_response (message : String) (data : Option SendResult) : LambdaResult :=
  { statusCode := 200, body := ResponseBody.okBody message data }

/-- Embedding of `error_response(message)`. -/
def error_response (message : String) : LambdaResult :=
  { statusCode := 500, body := ResponseBody.errBody message }

/-- The body of `lambda_handler`'s `try` block: fetch the attendance rows,
short-circuit on an empty result, otherwise transform, obtain a token and
send; any raised exception is propagated in `Except.error`. -/
def run_body (env : Env) (w : World) : Except PyErr LambdaResult × World :=
  match env.fetchResult with
  | Except.error msg => (Except.error (PyErr.exception msg), w)
  | Except.ok records =>
    if records.isEmpty then
      (Except.ok (success_response "No data to send." none), w)
    else
      let zoho_data := transform_records_for_zoho records
      match get_or_refresh_zoho_access_token env env.refreshToken env.clientId env.clientSecret w with
      | (Except.error e, w1) => (Except.error e, w1)
      | (Except.ok access_token, w1) =>
        match send_to_zoho env zoho_data access_token w1 with
        | (Except.error e, w2) => (Except.error e, w2)
        | (Except.ok response, w2) =>
          (Except.ok (success_response "Data sent to Zoho successfully" (some response)), w2)

/-- Embedding of `lambda_handler`: the catch-all `except Exception as e`
converts any raised exception into `error_response(str(e))`. -/
def lambda_handler (env : Env) (w : World) : LambdaResult × World :=
  match run_body env w with
  | (Except.ok r, w1) => (r, w1)
  | (Except.error e, w1) => (error_response (pyStr e), w1)

/-- Substring containment: `sub` occurs somewhere inside `s`. -/
def strContains (s sub : String) : Prop := ∃ a b, s = a ++ sub ++ b

/-- A usable cached credential is present: both SSM reads would succeed,
the expiry parses, and `now` is before `expiry - GracePeriod`. -/
def fresh_cached_credential (env : Env) (w : World) : Prop :=
  env.tokenReadFault = none ∧ env.expiryReadFault = none ∧
  ∃ tok expv e, w.store.token = some tok ∧ w.store.expiry = some expv ∧
    fromisoformat expv = some e ∧ env.now < e - ACCESS_TOKEN_GRACE_PERIOD

/-- An all-zero effect trace, for concrete runs. -/
def trace0 : Trace :=
  { storeReads := 0, storeWrites := [], tokenPosts := 0, refreshCalls := 0, bulkPosts := 0 }

/-- A default environment for concrete runs; individual scenarios override fields. -/
def baseEnv : Env :=
  { now := 0, refreshToken := "refTok", clientId := "cid", clientSecret := "sec",
    tokenReadFault := none, expiryReadFault := none,
    putTokenFault := none, putExpiryFault := none,
    tokenResponse := { status_code := 200, text := "", json := none },
    fetchResult := Except.ok [], bulkResult := Except.ok { status_code := 200, text := "" } }

/-- A world with an empty store, for concrete runs. -/
def emptyWorld : World := { store := { token := none, expiry := none }, trace := trace0 }

/-- A stale cached credential: the expiry (100) is long past `now` (1000). -/
def staleWorld : World :=
  { store := { token := some (ParamValue.pstr "cachedTok"),
               expiry := some (ParamValue.piso 100) },
    trace := trace0 }

/-- A fresh cached credential relative to `now = 0` (expiry 10000). -/
def freshWorld : World :=
  { store := { token := some (ParamValue.pstr "tok123"),
               expiry := some (ParamValue.piso 10000) },
    trace := trace0 }

/-- An environment whose token endpoint rejects the grant with a 500. -/
def rejectEnv : Env :=
  { baseEnv with
    now := 1000,
    tokenResponse := { status_code := 500, text := "invalid_client", json := none } }

/-- An environment whose token endpoint issues `newTok` for 3600 seconds. -/
def issueEnv : Env :=
  { baseEnv with
    now := 1000,
    tokenResponse := { status_code := 200, text := "ok",
                       json := some { access_token := "newTok", expires_in := 3600 } } }

/-- Like `issueEnv` but the issued token lives for 0 seconds. -/
def zeroLifeEnv : Env :=
  { issueEnv with
    tokenResponse := { status_code := 200, text := "ok",
                       json := some { access_token := "newTok", expires_in := 0 } } }

/-- Like `issueEnv` but the SSM write of the expiry key raises. -/
def expiryPutFailEnv : Env := { issueEnv with putExpiryFault := some "ssm down" }

/-- A store already holding an older credential, to observe overwrites. -/
def oldCredWorld : World :=
  { store := { token := some (ParamValue.pstr "oldTok"),
               expiry := some (ParamValue.piso 50) },
    trace := trace0 }

/-- A check-in attendance row. -/
def rowIn : Row :=
  { employeeId := "E1", eventTime := "2024-01-01 09:00:00",
    isCheckin := "1", downloadDate := "2024-01-01 09:00:00" }

/-- A check-out attendance row. -/
def rowOut : Row :=
  { employeeId := "E2", eventTime := "2024-01-01 17:00:00",
    isCheckin := "0", downloadDate := "2024-01-01 17:00:00" }

/-- A row whose `isCheckin` flag is neither `"1"` nor `"0"`. -/
def rowOdd : Row :=
  { employeeId := "E3", eventTime := "2024-01-02 08:00:00",
    isCheckin := "7", downloadDate := "2024-01-02 08:00:00" }

/-- An environment with one row to send and a bulk-import endpoint that
answers 400 (an application-level rejection). -/
def bulkRejectEnv : Env :=
  { baseEnv with
    fetchResult := Except.ok [rowIn],
    bulkResult := Except.ok { status_code := 400, text := "rows rejected" } }

/-- An environment whose attendance query itself raises. -/
def fetchFailEnv : Env :=
  { baseEnv with fetchResult := Except.error "database unreachable" }

/-- On a fresh cache hit, `get_or_refresh_zoho_access_token` performs
exactly the two SSM reads and returns the cached value. -/
theorem gor_fresh_hit (env : Env) (rt ci cs : String) (w : World)
    (tok expv : ParamValue) (e : Int)
    (htf : env.tokenReadFault = none) (hef : env.expiryReadFault = none)
    (htok : w.store.token = some tok) (hexp : w.store.expiry = some expv)
    (hparse : fromisoformat expv = some e)
    (hfresh : env.now < e - ACCESS_TOKEN_GRACE_PERIOD) :
    get_or_refresh_zoho_access_token env rt ci cs w =
      (Except.ok tok,
       { w with trace := { w.trace with storeReads := w.trace.storeReads + 1 + 1 } }) := by
  simp [get_or_refresh_zoho_access_token, get_ssm_parameter, htf, hef, htok, hexp,
    hparse, hfresh, ZOHO_TOKEN_SSM_KEY, ZOHO_TOKEN_EXPIRY_SSM_KEY]

/-- C1: with a cached token and parseable expiry read successfully and
`now < expiry - GracePeriod`, `get_or_refresh_zoho_access_token` returns the
cached token unchanged, invokes no refresh, POSTs nothing to the token
endpoint, writes nothing to the store, and leaves the store unchanged. -/
theorem c1_fresh_cache_hit (env : Env) (rt ci cs : String) (w : World)
    (tok expv : ParamValue) (e : Int)
    (htf : env.tokenReadFault = none) (hef : env.expiryReadFault = none)
    (htok : w.store.token = some tok) (hexp : w.store.expiry = some expv)
    (hparse : fromisoformat expv = some e)
    (hfresh : env.now < e - ACCESS_TOKEN_GRACE_PERIOD) :
    (get_or_refresh_zoho_access_token env rt ci cs w).1 = Except.ok tok ∧
    (get_or_refresh_zoho_access_token env rt ci cs w).2.store = w.store ∧
    (get_or_refresh_zoho_access_token env rt ci cs w).2.trace.refreshCalls = w.trace.refreshCalls ∧
    (get_or_refresh_zoho_access_token env rt ci cs w).2.trace.tokenPosts = w.trace.tokenPosts ∧
    (get_or_refresh_zoho_access_token env rt ci cs w).2.trace.storeWrites = w.trace.storeWrites := by
  rw [gor_fresh_hit env rt ci cs w tok expv e htf hef htok hexp hparse hfresh]
  exact ⟨rfl, rfl, rfl, rfl, rfl⟩

/-- C1 witness: a concrete fresh cache hit (now = 0, expiry = 10000). -/
theorem c1_fresh_cache_hit_witness :
    (get_or_refresh_zoho_access_token baseEnv "rt" "ci" "cs" freshWorld).1 =
      Except.ok (ParamValue.pstr "tok123") ∧
    (get_or_refresh_zoho_access_token baseEnv "rt" "ci" "cs" freshWorld).2.store =
      freshWorld.store ∧
    (get_or_refresh_zoho_access_token baseEnv "rt" "ci" "cs" freshWorld).2.trace.refreshCalls =
      freshWorld.trace.refreshCalls ∧
    (get_or_refresh_zoho_access_token baseEnv "rt" "ci" "cs" freshWorld).2.trace.tokenPosts =
      freshWorld.trace.tokenPosts ∧
    (get_or_refresh_zoho_access_token baseEnv "rt" "ci" "cs" freshWorld).2.trace.storeWrites =
      freshWorld.trace.storeWrites :=
  c1_fresh_cache_hit baseEnv "rt" "ci" "cs" freshWorld
    (ParamValue.pstr "tok123") (ParamValue.piso 10000) 10000
    rfl rfl rfl rfl rfl (by decide)

/-- A successful refresh: one POST, token written then expiry written,
the issued token returned. -/
theorem refresh_ok (env : Env) (rt ci cs : String) (w : World) (tj : TokenJson)
    (h200 : env.tokenResponse.status_code = 200)
    (hj : env.tokenResponse.json = some tj)
    (hp1 : env.putTokenFault = none) (hp2 : env.putExpiryFault = none) :
    refresh_zoho_access_token env rt ci cs w =
      (Except.ok (ParamValue.pstr tj.access_token),
       { store := { token := some (ParamValue.pstr tj.access_token),
                    expiry := some (isoformat (env.now + tj.expires_in)) },
         trace := { storeReads := w.trace.storeReads,
                    storeWrites := w.trace.storeWrites ++
                      [(ZOHO_TOKEN_SSM_KEY, ParamValue.pstr tj.access_token, "SecureString"),
                       (ZOHO_TOKEN_EXPIRY_SSM_KEY, isoformat (env.now + tj.expires_in), "String")],
                    tokenPosts := w.trace.tokenPosts + 1,
                    refreshCalls := w.trace.refreshCalls + 1,
                    bulkPosts := w.trace.bulkPosts } }) := by
  simp [refresh_zoho_access_token, put_ssm_parameter, h200, hj, hp1, hp2,
    ZOHO_TOKEN_SSM_KEY, ZOHO_TOKEN_EXPIRY_SSM_KEY]

/-- A refresh against a non-200 token endpoint raises and changes nothing
but the attempt counters. -/
theorem refresh_non200 (env : Env) (rt ci cs : String) (w : World)
    (hs : env.tokenResponse.status_code ≠ 200) :
    refresh_zoho_access_token env rt ci cs w =
      (Except.error (PyErr.exception
        ("Failed to refresh Zoho access token: " ++ env.tokenResponse.text)),
       { w with trace := { w.trace with
          refreshCalls := w.trace.refreshCalls + 1,
          tokenPosts := w.trace.tokenPosts + 1 } }) := by
  simp [refresh_zoho_access_token, hs]

/-- C3: on any non-200 token-endpoint response, the refresh raises an
exception whose message contains the raw response body text, completes no
store write, and leaves both SSM parameters unchanged. -/
theorem c3_non200_raises_no_write (env : Env) (rt ci cs : String) (w : World)
    (hs : env.tokenResponse.status_code ≠ 200) :
    (∃ msg, (refresh_zoho_access_token env rt ci cs w).1 =
        Except.error (PyErr.exception msg) ∧ strContains msg env.tokenResponse.text) ∧
    (refresh_zoho_access_token env rt ci cs w).2.store = w.store ∧
    (refresh_zoho_access_token env rt ci cs w).2.trace.storeWrites = w.trace.storeWrites := by
  rw [refresh_non200 env rt ci cs w hs]
  refine ⟨⟨"Failed to refresh Zoho access token: " ++ env.tokenResponse.text, rfl,
    "Failed to refresh Zoho access token: ", "", ?_⟩, rfl, rfl⟩
  rw [String.append_empty]

/-- C3 witness: the endpoint answers 500 with body `invalid_client`. -/
theorem c3_non200_raises_no_write_witness :
    (∃ msg, (refresh_zoho_access_token rejectEnv "rt" "ci" "cs" oldCredWorld).1 =
        Except.error (PyErr.exception msg) ∧ strContains msg rejectEnv.tokenResponse.text) ∧
    (refresh_zoho_access_token rejectEnv "rt" "ci" "cs" oldCredWorld).2.store =
      oldCredWorld.store ∧
    (refresh_zoho_access_token rejectEnv "rt" "ci" "cs" oldCredWorld).2.trace.storeWrites =
      oldCredWorld.trace.storeWrites :=
  c3_non200_raises_no_write rejectEnv "rt" "ci" "cs" oldCredWorld (by decide)

/-- C10: during a refresh the token key is written before the expiry key
(part 1: the completed-write trace on full success); if the expiry write
fails the store holds the new token next to the previous expiry and the
error propagates (part 2); and a changed expiry always sits next to the
matching new token (part 3). -/
theorem c10_token_written_before_expiry (env : Env) (rt ci cs : String)
    (w : World) (tj : TokenJson) (msg : String) :
    (env.tokenResponse.status_code = 200 → env.tokenResponse.json = some tj →
      env.putTokenFault = none → env.putExpiryFault = none →
      (refresh_zoho_access_token env rt ci cs w).2.trace.storeWrites =
        w.trace.storeWrites ++
          [(ZOHO_TOKEN_SSM_KEY, ParamValue.pstr tj.access_token, "SecureString"),
           (ZOHO_TOKEN_EXPIRY_SSM_KEY, isoformat (env.now + tj.expires_in), "String")]) ∧
    (env.tokenResponse.status_code = 200 → env.tokenResponse.json = some tj →
      env.putTokenFault = none → env.putExpiryFault = some msg →
      (refresh_zoho_access_token env rt ci cs w).1 =
        Except.error (PyErr.exception msg) ∧
      (refresh_zoho_access_token env rt ci cs w).2.store.token =
        some (ParamValue.pstr tj.access_token) ∧
      (refresh_zoho_access_token env rt ci cs w).2.store.expiry = w.store.expiry) ∧
    ((refresh_zoho_access_token env rt ci cs w).2.store.expiry ≠ w.store.expiry →
      ∃ tj2, env.tokenResponse.json = some tj2 ∧
        (refresh_zoho_access_token env rt ci cs w).2.store.token =
          some (ParamValue.pstr tj2.access_token) ∧
        (refresh_zoho_access_token env rt ci cs w).2.store.expiry =
          some (isoformat (env.now + tj2.expires_in))) := by
  refine ⟨?_, ?_, ?_⟩
  · intro h200 hj hp1 hp2
    rw [refresh_ok env rt ci cs w tj h200 hj hp1 hp2]
  · intro h200 hj hp1 hp2
    simp [refresh_zoho_access_token, put_ssm_parameter, h200, hj, hp1, hp2,
      ZOHO_TOKEN_SSM_KEY, ZOHO_TOKEN_EXPIRY_SSM_KEY]
  · intro hch
    by_cases h200 : env.tokenResponse.status_code = 200
    · rcases hj : env.tokenResponse.json with _ | tj2
      · simp [refresh_zoho_access_token, h200, hj] at hch
      · rcases hp1 : env.putTokenFault with _ | m1
        · rcases hp2 : env.putExpiryFault with _ | m2
          · exact ⟨tj2, rfl, by rw [refresh_ok env rt ci cs w tj2 h200 hj hp1 hp2],
              by rw [refresh_ok env rt ci cs w tj2 h200 hj hp1 hp2]⟩
          · exfalso
            apply hch
            simp [refresh_zoho_access_token, put_ssm_parameter, h200, hj, hp1, hp2,
              ZOHO_TOKEN_SSM_KEY, ZOHO_TOKEN_EXPIRY_SSM_KEY]
        · exfalso
          apply hch
          simp [refresh_zoho_access_token, put_ssm_parameter, h200, hj, hp1]
    · exfalso
      apply hch
      simp [refresh_zoho_access_token, h200]

/-- C10 witness: on `issueEnv` the two writes land in token-then-expiry
order; on `expiryPutFailEnv` the expiry write raises, leaving the new token
next to the old expiry. -/
theorem c10_token_written_before_expiry_witness :
    ((refresh_zoho_access_token issueEnv "rt" "ci" "cs" oldCredWorld).2.trace.storeWrites =
      oldCredWorld.trace.storeWrites ++
        [(ZOHO_TOKEN_SSM_KEY, ParamValue.pstr "newTok", "SecureString"),
         (ZOHO_TOKEN_EXPIRY_SSM_KEY, isoformat (issueEnv.now + 3600), "String")]) ∧
    ((refresh_zoho_access_token expiryPutFailEnv "rt" "ci" "cs" oldCredWorld).1 =
        Except.error (PyErr.exception "ssm down") ∧
      (refresh_zoho_access_token expiryPutFailEnv "rt" "ci" "cs" oldCredWorld).2.store.token =
        some (ParamValue.pstr "newTok") ∧
      (refresh_zoho_access_token expiryPutFailEnv "rt" "ci" "cs" oldCredWorld).2.store.expiry =
        oldCredWorld.store.expiry) :=
  ⟨(c10_token_written_before_expiry issueEnv "rt" "ci" "cs" oldCredWorld
      { access_token := "newTok", expires_in := 3600 } "ssm down").1 rfl rfl rfl rfl,
   (c10_token_written_before_expiry expiryPutFailEnv "rt" "ci" "cs" oldCredWorld
      { access_token := "newTok", expires_in := 3600 } "ssm down").2.1 rfl rfl rfl rfl⟩

/-- C2 counterexample: with a stale cached credential (now = 1000, expiry
= 100) and a token endpoint answering 500, the stale-branch refresh raises
inside the `try` block, the catch-all `except` handler runs, and the
refresh path is invoked a second time — two refresh invocations and two
POSTs to the token endpoint, not exactly one, and no token is returned. -/
theorem c2_counterexample :
    (get_or_refresh_zoho_access_token rejectEnv "rt" "ci" "cs" staleWorld).2.trace.refreshCalls = 2 ∧
    (get_or_refresh_zoho_access_token rejectEnv "rt" "ci" "cs" staleWorld).2.trace.tokenPosts = 2 ∧
    (get_or_refresh_zoho_access_token rejectEnv "rt" "ci" "cs" staleWorld).1 =
      Except.error (PyErr.exception
        "Failed to refresh Zoho access token: invalid_client") := by
  refine ⟨rfl, rfl, rfl⟩

/-- C2 (amended): whenever no fresh cached credential is available (stale,
missing, unparseable or errored store reads) and the refresh itself
succeeds, `get_or_refresh_zoho_access_token` invokes the refresh path
exactly once and returns the newly issued token; the store condition is
never surfaced as a failure. -/
theorem c2_amended_refresh_once (env : Env) (rt ci cs : String) (w : World)
    (tj : TokenJson)
    (hmiss : ¬ fresh_cached_credential env w)
    (h200 : env.tokenResponse.status_code = 200)
    (hj : env.tokenResponse.json = some tj)
    (hp1 : env.putTokenFault = none) (hp2 : env.putExpiryFault = none) :
    (get_or_refresh_zoho_access_token env rt ci cs w).1 =
      Except.ok (ParamValue.pstr tj.access_token) ∧
    (get_or_refresh_zoho_access_token env rt ci cs w).2.trace.refreshCalls =
      w.trace.refreshCalls + 1 ∧
    (get_or_refresh_zoho_access_token env rt ci cs w).2.trace.tokenPosts =
      w.trace.tokenPosts + 1 := by
  have hrw : ∀ w', refresh_zoho_access_token env rt ci cs w' =
      (Except.ok (ParamValue.pstr tj.access_token),
       { store := { token := some (ParamValue.pstr tj.access_token),
                    expiry := some (isoformat (env.now + tj.expires_in)) },
         trace := { storeReads := w'.trace.storeReads,
                    storeWrites := w'.trace.storeWrites ++
                      [(ZOHO_TOKEN_SSM_KEY, ParamValue.pstr tj.access_token, "SecureString"),
                       (ZOHO_TOKEN_EXPIRY_SSM_KEY, isoformat (env.now + tj.expires_in), "String")],
                    tokenPosts := w'.trace.tokenPosts + 1,
                    refreshCalls := w'.trace.refreshCalls + 1,
                    bulkPosts := w'.trace.bulkPosts } }) :=
    fun w' => refresh_ok env rt ci cs w' tj h200 hj hp1 hp2
  rcases htf : env.tokenReadFault with _ | m1
  · rcases htok : w.store.token with _ | tok
    · simp [get_or_refresh_zoho_access_token, get_ssm_parameter, htf, htok, hrw,
        ZOHO_TOKEN_SSM_KEY, ZOHO_TOKEN_EXPIRY_SSM_KEY]
    · rcases hef : env.expiryReadFault with _ | m2
      · rcases hexp : w.store.expiry with _ | expv
        · simp [get_or_refresh_zoho_access_token, get_ssm_parameter, htf, hef,
            htok, hexp, hrw, ZOHO_TOKEN_SSM_KEY, ZOHO_TOKEN_EXPIRY_SSM_KEY]
        · rcases hparse : fromisoformat expv with _ | e
          · simp [get_or_refresh_zoho_access_token, get_ssm_parameter, htf, hef,
              htok, hexp, hparse, hrw, ZOHO_TOKEN_SSM_KEY, ZOHO_TOKEN_EXPIRY_SSM_KEY]
          · have hstale : ¬ env.now < e - ACCESS_TOKEN_GRACE_PERIOD := fun hlt =>
              hmiss ⟨htf, hef, tok, expv, e, htok, hexp, hparse, hlt⟩
            simp [get_or_refresh_zoho_access_token, get_ssm_parameter, htf, hef,
              htok, hexp, hparse, hstale, hrw,
              ZOHO_TOKEN_SSM_KEY, ZOHO_TOKEN_EXPIRY_SSM_KEY]
      · simp [get_or_refresh_zoho_access_token, get_ssm_parameter, htf, hef,
          htok, hrw, ZOHO_TOKEN_SSM_KEY, ZOHO_TOKEN_EXPIRY_SSM_KEY]
  · simp [get_or_refresh_zoho_access_token, get_ssm_parameter, htf, hrw]

/-- C2 witness: an empty store and a token endpoint issuing `newTok`:
one refresh, one POST, the new token returned. -/
theorem c2_amended_refresh_once_witness :
    (get_or_refresh_zoho_access_token issueEnv "rt" "ci" "cs" emptyWorld).1 =
      Except.ok (ParamValue.pstr "newTok") ∧
    (get_or_refresh_zoho_access_token issueEnv "rt" "ci" "cs" emptyWorld).2.trace.refreshCalls =
      emptyWorld.trace.refreshCalls + 1 ∧
    (get_or_refresh_zoho_access_token issueEnv "rt" "ci" "cs" emptyWorld).2.trace.tokenPosts =
      emptyWorld.trace.tokenPosts + 1 :=
  c2_amended_refresh_once issueEnv "rt" "ci" "cs" emptyWorld
    { access_token := "newTok", expires_in := 3600 }
    (by simp [fresh_cached_credential, emptyWorld]) rfl rfl rfl rfl

/-- C4 counterexample: a successful refresh whose issued token lives for
0 seconds (`expires_in = 0`, within the grace period).  The store then
holds the new token and expiry, yet a subsequent
`get_or_refresh_zoho_access_token` with the same `now` does not return it
from cache: it invokes the refresh path again (refresh count rises to 2). -/
theorem c4_counterexample :
    (refresh_zoho_access_token zeroLifeEnv "rt" "ci" "cs" emptyWorld).1 =
      Except.ok (ParamValue.pstr "newTok") ∧
    (get_or_refresh_zoho_access_token zeroLifeEnv "rt" "ci" "cs"
      (refresh_zoho_access_token zeroLifeEnv "rt" "ci" "cs" emptyWorld).2).2.trace.refreshCalls = 2 :=
  ⟨rfl, rfl⟩

/-- C4 (amended): after every successful refresh the store holds the new
token (SecureString) and an expiry equal to `issue_time + expires_in`
(String) before the refresh returns; and — provided `expires_in` exceeds
the grace period and the store reads do not fault — a subsequent
`get_or_refresh_zoho_access_token` with the same `now` returns that token
from cache without invoking the refresh path again. -/
theorem c4_amended_refresh_then_cached (env : Env) (rt ci cs : String)
    (w : World) (tj : TokenJson)
    (h200 : env.tokenResponse.status_code = 200)
    (hj : env.tokenResponse.json = some tj)
    (hp1 : env.putTokenFault = none) (hp2 : env.putExpiryFault = none)
    (htf : env.tokenReadFault = none) (hef : env.expiryReadFault = none)
    (hgrace : ACCESS_TOKEN_GRACE_PERIOD < tj.expires_in) :
    (refresh_zoho_access_token env rt ci cs w).1 =
      Except.ok (ParamValue.pstr tj.access_token) ∧
    (refresh_zoho_access_token env rt ci cs w).2.store.token =
      some (ParamValue.pstr tj.access_token) ∧
    (refresh_zoho_access_token env rt ci cs w).2.store.expiry =
      some (isoformat (env.now + tj.expires_in)) ∧
    (get_or_refresh_zoho_access_token env rt ci cs
        (refresh_zoho_access_token env rt ci cs w).2).1 =
      Except.ok (ParamValue.pstr tj.access_token) ∧
    (get_or_refresh_zoho_access_token env rt ci cs
        (refresh_zoho_access_token env rt ci cs w).2).2.trace.refreshCalls =
      (refresh_zoho_access_token env rt ci cs w).2.trace.refreshCalls := by
  rw [refresh_ok env rt ci cs w tj h200 hj hp1 hp2]
  have hfresh : env.now < (env.now + tj.expires_in) - ACCESS_TOKEN_GRACE_PERIOD := by
    omega
  rw [gor_fresh_hit env rt ci cs _ (ParamValue.pstr tj.access_token)
    (isoformat (env.now + tj.expires_in)) (env.now + tj.expires_in)
    htf hef rfl rfl rfl hfresh]
  exact ⟨rfl, rfl, rfl, rfl, rfl⟩

/-- C4 witness: `issueEnv` issues `newTok` for 3600 s; the store then holds
it with expiry `now + 3600` and the follow-up call is a cache hit. -/
theorem c4_amended_refresh_then_cached_witness :
    (refresh_zoho_access_token issueEnv "rt" "ci" "cs" emptyWorld).1 =
      Except.ok (ParamValue.pstr "newTok") ∧
    (refresh_zoho_access_token issueEnv "rt" "ci" "cs" emptyWorld).2.store.token =
      some (ParamValue.pstr "newTok") ∧
    (refresh_zoho_access_token issueEnv "rt" "ci" "cs" emptyWorld).2.store.expiry =
      some (isoformat (issueEnv.now + 3600)) ∧
    (get_or_refresh_zoho_access_token issueEnv "rt" "ci" "cs"
        (refresh_zoho_access_token issueEnv "rt" "ci" "cs" emptyWorld).2).1 =
      Except.ok (ParamValue.pstr "newTok") ∧
    (get_or_refresh_zoho_access_token issueEnv "rt" "ci" "cs"
        (refresh_zoho_access_token issueEnv "rt" "ci" "cs" emptyWorld).2).2.trace.refreshCalls =
      (refresh_zoho_access_token issueEnv "rt" "ci" "cs" emptyWorld).2.trace.refreshCalls :=
  c4_amended_refresh_then_cached issueEnv "rt" "ci" "cs" emptyWorld
    { access_token := "newTok", expires_in := 3600 }
    rfl rfl rfl rfl rfl rfl (by decide)

/-- C5: each source row maps, at the same position, to
`empId`/`checkIn` when `isCheckin = "1"` and to `empId`/`checkOut` when
`isCheckin = "0"`; every output record carries exactly the keys `empId`
plus one of `checkIn`/`checkOut` and nothing else. -/
theorem c5_row_mapping (records : List Row) (i : Nat) (record : Row)
    (hrec : records[i]? = some record) :
    (record.isCheckin = "1" →
      (transform_records_for_zoho records)[i]? =
        some [("empId", record.employeeId), ("checkIn", record.eventTime)]) ∧
    (record.isCheckin = "0" →
      (transform_records_for_zoho records)[i]? =
        some [("empId", record.employeeId), ("checkOut", record.eventTime)]) ∧
    (∀ out, (transform_records_for_zoho records)[i]? = some out →
      out.map Prod.fst = ["empId", "checkIn"] ∨
      out.map Prod.fst = ["empId", "checkOut"]) := by
  have hmap : (transform_records_for_zoho records)[i]? =
      some (if record.isCheckin = "1" then
        [("empId", record.employeeId), ("checkIn", record.eventTime)]
      else
        [("empId", record.employeeId), ("checkOut", record.eventTime)]) := by
    simp [transform_records_for_zoho, List.getElem?_map, hrec]
  refine ⟨?_, ?_, ?_⟩
  · intro h1
    rw [hmap, if_pos h1]
  · intro h0
    rw [hmap, if_neg (by rw [h0]; decide)]
  · intro out hout
    rw [hmap] at hout
    by_cases h1 : record.isCheckin = "1"
    · rw [if_pos h1] at hout
      left
      cases hout
      rfl
    · rw [if_neg h1] at hout
      right
      cases hout
      rfl

/-- C5 witness: a check-in row and a check-out row at positions 0 and 1. -/
theorem c5_row_mapping_witness :
    (transform_records_for_zoho [rowIn, rowOut])[0]? =
      some [("empId", "E1"), ("checkIn", "2024-01-01 09:00:00")] ∧
    (transform_records_for_zoho [rowIn, rowOut])[1]? =
      some [("empId", "E2"), ("checkOut", "2024-01-01 17:00:00")] :=
  ⟨(c5_row_mapping [rowIn, rowOut] 0 rowIn rfl).1 rfl,
   (c5_row_mapping [rowIn, rowOut] 1 rowOut rfl).2.1 rfl⟩

/-- C9: `transform_records_for_zoho` emits exactly one record per input
row, at the same position; any row whose `isCheckin` differs from `"1"` —
not only `"0"` — maps to the `checkOut` variant. -/
theorem c9_one_output_per_row (records : List Row) :
    (transform_records_for_zoho records).length = records.length ∧
    ∀ (i : Nat) (record : Row), records[i]? = some record → record.isCheckin ≠ "1" →
      (transform_records_for_zoho records)[i]? =
        some [("empId", record.employeeId), ("checkOut", record.eventTime)] := by
  constructor
  · simp [transform_records_for_zoho]
  · intro i record hrec hne
    simp [transform_records_for_zoho, List.getElem?_map, hrec, hne]

/-- C9 witness: one row whose flag is `"7"` (neither `"1"` nor `"0"`)
still yields one output record, the `checkOut` variant. -/
theorem c9_one_output_per_row_witness :
    (transform_records_for_zoho [rowOdd]).length = ([rowOdd] : List Row).length ∧
    (transform_records_for_zoho [rowOdd])[0]? =
      some [("empId", "E3"), ("checkOut", "2024-01-02 08:00:00")] :=
  ⟨(c9_one_output_per_row [rowOdd]).1,
   (c9_one_output_per_row [rowOdd]).2 0 rowOdd rfl (by decide)⟩

/-- C6: when the attendance query returns an empty result set, the run
returns a 200 success with the "nothing to send" message and leaves the
world untouched: no store read, no refresh, no token POST, no bulk POST. -/
theorem c6_empty_short_circuit (env : Env) (w : World)
    (hfetch : env.fetchResult = Except.ok []) :
    lambda_handler env w =
      ({ statusCode := 200, body := ResponseBody.okBody "No data to send." none }, w) ∧
    (lambda_handler env w).2.trace.storeReads = w.trace.storeReads ∧
    (lambda_handler env w).2.trace.refreshCalls = w.trace.refreshCalls ∧
    (lambda_handler env w).2.trace.tokenPosts = w.trace.tokenPosts ∧
    (lambda_handler env w).2.trace.bulkPosts = w.trace.bulkPosts := by
  have h : lambda_handler env w =
      ({ statusCode := 200, body := ResponseBody.okBody "No data to send." none }, w) := by
    simp [lambda_handler, run_body, hfetch, success_response]
  rw [h]
  exact ⟨rfl, rfl, rfl, rfl, rfl⟩

/-- C6 witness: `baseEnv`'s query returns no rows. -/
theorem c6_empty_short_circuit_witness :
    lambda_handler baseEnv emptyWorld =
      ({ statusCode := 200, body := ResponseBody.okBody "No data to send." none },
       emptyWorld) ∧
    (lambda_handler baseEnv emptyWorld).2.trace.storeReads = emptyWorld.trace.storeReads ∧
    (lambda_handler baseEnv emptyWorld).2.trace.refreshCalls = emptyWorld.trace.refreshCalls ∧
    (lambda_handler baseEnv emptyWorld).2.trace.tokenPosts = emptyWorld.trace.tokenPosts ∧
    (lambda_handler baseEnv emptyWorld).2.trace.bulkPosts = emptyWorld.trace.bulkPosts :=
  c6_empty_short_circuit baseEnv emptyWorld rfl

/-- C7: whenever the bulk-import endpoint returns any HTTP response at all
— the hypothesis places no constraint on its status — the run's result is
a 200 success envelope embedding the provider's raw status code and body. -/
theorem c7_any_bulk_response_is_success (env : Env) (w w1 : World)
    (records : List Row) (tok : ParamValue) (resp : BulkResponse)
    (hfetch : env.fetchResult = Except.ok records)
    (hne : records.isEmpty = false)
    (htok : get_or_refresh_zoho_access_token env env.refreshToken env.clientId
      env.clientSecret w = (Except.ok tok, w1))
    (hbulk : env.bulkResult = Except.ok resp) :
    (lambda_handler env w).1 =
      { statusCode := 200,
        body := ResponseBody.okBody "Data sent to Zoho successfully"
          (some { status_code := resp.status_code, response_body := resp.text }) } := by
  simp [lambda_handler, run_body, hfetch, hne, htok, send_to_zoho, hbulk,
    success_response]

/-- C7 witness: the bulk-import endpoint answers 400 `rows rejected`, yet
the run reports a 200 success embedding that status and body. -/
theorem c7_any_bulk_response_is_success_witness :
    (lambda_handler bulkRejectEnv freshWorld).1 =
      { statusCode := 200,
        body := ResponseBody.okBody "Data sent to Zoho successfully"
          (some { status_code := 400, response_body := "rows rejected" }) } :=
  c7_any_bulk_response_is_success bulkRejectEnv freshWorld
    { freshWorld with trace := { freshWorld.trace with
        storeReads := freshWorld.trace.storeReads + 1 + 1 } }
    [rowIn] (ParamValue.pstr "tok123")
    { status_code := 400, text := "rows rejected" }
    rfl rfl rfl rfl

/-- Every successful `run_body` outcome is a 200 response. -/
theorem run_body_ok_status (env : Env) (w : World) (r : LambdaResult) (w1 : World)
    (h : run_body env w = (Except.ok r, w1)) : r.statusCode = 200 := by
  unfold run_body at h
  split at h
  · exact absurd h (by simp)
  · split at h
    · injection h with h1 h2
      injection h1 with h1
      subst h1
      rfl
    · split at h
      · exact absurd h (by simp)
      · dsimp only at h
        split at h
        · exact absurd h (by simp)
        · injection h with h1 h2
          injection h1 with h1
          subst h1
          rfl

/-- C8: every run either succeeds with a 200 result, or the exception
raised inside the run is caught at the top level and converted into a
uniform failure result with status 500 whose body message is the
exception's text; no exception escapes `lambda_handler`. -/
theorem c8_top_level_catch (env : Env) (w : World) :
    (∃ r w1, run_body env w = (Except.ok r, w1) ∧
      lambda_handler env w = (r, w1) ∧ r.statusCode = 200) ∨
    (∃ e w1, run_body env w = (Except.error e, w1) ∧
      lambda_handler env w =
        ({ statusCode := 500, body := ResponseBody.errBody (pyStr e) }, w1)) := by
  rcases hrb : run_body env w with ⟨res, w1⟩
  rcases res with e | r
  · right
    exact ⟨e, w1, rfl, by simp [lambda_handler, hrb, error_response]⟩
  · left
    exact ⟨r, w1, rfl, by simp [lambda_handler, hrb],
      run_body_ok_status env w r w1 hrb⟩

end ZohoSync
